import Mathlib

/-!
Verification of the odometry estimator in
`hunter_controller/src/odometry.cpp` (namespace `hunter_controller`,
class `Odometry`).  Doubles are modelled as exact reals; every method is
embedded as a pure function from the estimator state to a new state,
following the source statement by statement.
-/

namespace HunterController

/-- Modelled from the spec: `rcppmath::RollingMeanAccumulator`, used by
`hunter_controller/odometry.hpp` but not present under the repository
sources.  A fixed-capacity FIFO window of the most recent samples
(newest first) together with its capacity; the rolling mean is the sum
of the held samples divided by their count, with the empty window giving
the neutral value 0. -/
structure RollingMeanAccumulator where
  capacity : ℕ
  window : List ℝ

namespace RollingMeanAccumulator

/-- Modelled from the spec: insert a sample, evicting the oldest when
the buffer is at capacity (FIFO, at most `capacity` held). -/
def accumulate (a : RollingMeanAccumulator) (v : ℝ) : RollingMeanAccumulator :=
  { a with window := (v :: a.window).take a.capacity }

/-- Modelled from the spec: running sum divided by the count of valid
samples; 0 when no samples have been inserted yet. -/
noncomputable def getRollingMean (a : RollingMeanAccumulator) : ℝ :=
  a.window.sum / a.window.length

/-- Modelled from the spec: a freshly constructed accumulator of the
given capacity holds no samples. -/
def mk0 (capacity : ℕ) : RollingMeanAccumulator :=
  { capacity := capacity, window := [] }

end RollingMeanAccumulator

/-- The member state of class `Odometry`, one field per data member of
`odometry.hpp` in the order of the constructor initializer list of
`odometry.cpp`.  `rclcpp::Time` values are modelled by their value in
seconds. -/
@[ext]
structure Odometry where
  timestamp : ℝ
  x : ℝ
  y : ℝ
  heading : ℝ
  linear : ℝ
  angular : ℝ
  wheel_separation : ℝ
  left_wheel_radius : ℝ
  right_wheel_radius : ℝ
  left_wheel_old_pos : ℝ
  right_wheel_old_pos : ℝ
  linear_old_pos : ℝ
  angular_old_pos : ℝ
  velocity_rolling_window_size : ℕ
  linear_accumulator : RollingMeanAccumulator
  angular_accumulator : RollingMeanAccumulator

namespace Odometry

/-- The constructor `Odometry::Odometry(size_t velocity_rolling_window_size)`. -/
def mk0 (velocity_rolling_window_size : ℕ) : Odometry :=
  { timestamp := 0
    x := 0
    y := 0
    heading := 0
    linear := 0
    angular := 0
    wheel_separation := 0
    left_wheel_radius := 0
    right_wheel_radius := 0
    left_wheel_old_pos := 0
    right_wheel_old_pos := 0
    linear_old_pos := 0
    angular_old_pos := 0
    velocity_rolling_window_size := velocity_rolling_window_size
    linear_accumulator := RollingMeanAccumulator.mk0 velocity_rolling_window_size
    angular_accumulator := RollingMeanAccumulator.mk0 velocity_rolling_window_size }

/-- `Odometry::integrateRungeKutta2(double linear, double angular)`. -/
noncomputable def integrateRungeKutta2 (s : Odometry) (linear angular : ℝ) : Odometry :=
  let direction := s.heading + angular * 0.5
  { s with
    x := s.x + linear * Real.cos direction
    y := s.y + linear * Real.sin direction
    heading := s.heading + angular }

/-- `Odometry::integrateExact(double linear, double angular)`. -/
noncomputable def integrateExact (s : Odometry) (linear angular : ℝ) : Odometry :=
  if |angular| < 1e-6 then
    integrateRungeKutta2 s linear angular
  else
    let heading_old := s.heading
    let r := linear / angular
    let heading := s.heading + angular
    { s with
      heading := heading
      x := s.x + r * (Real.sin heading - Real.sin heading_old)
      y := s.y + -r * (Real.cos heading - Real.cos heading_old) }

/-- `Odometry::updateFromVelocity(double linear_vel, double angular_vel,
const rclcpp::Time and time)`: `dt` is taken before the timestamp is
advanced, pose is integrated with the raw values, then the accumulators
are fed `value / dt` and the published velocity state is set to the
rolling means.  Returns the returned bool with the new state. -/
noncomputable def updateFromVelocity (s : Odometry) (linear_vel angular_vel time : ℝ) :
    Bool × Odometry :=
  let dt := time - s.timestamp
  let linear := linear_vel
  let angular := angular_vel
  let s1 := integrateExact s linear angular
  let s2 := { s1 with timestamp := time }
  let la := s2.linear_accumulator.accumulate (linear / dt)
  let aa := s2.angular_accumulator.accumulate (angular / dt)
  (true,
    { s2 with
      linear_accumulator := la
      angular_accumulator := aa
      linear := la.getRollingMean
      angular := aa.getRollingMean })

/-- `Odometry::update(double linear_pos, double angular_pos, const
rclcpp::Time and time)` exactly as written in the source: the raw
samples are differenced against and then stored into the
previous-sample cache BEFORE the dt test; a misplaced closing brace
places the `updateFromVelocity` call and the `return true` statement
inside the `if (dt < 0.0001)` block after its `return false`, so both
are unreachable dead code, and when `dt >= 0.0001` control falls off the
end of the non-void function.  The undefined return value of that path
is modelled as `none`; the defined rejection path returns `some false`. -/
noncomputable def update (s : Odometry) (linear_pos angular_pos time : ℝ) :
    Option Bool × Odometry :=
  let linear_est_vel := linear_pos - s.linear_old_pos
  let angular_est_vel := angular_pos - s.angular_old_pos
  let s1 := { s with linear_old_pos := linear_pos, angular_old_pos := angular_pos }
  let linear := linear_est_vel
  let angular := angular_est_vel
  let dt := time - s1.timestamp
  if dt < 0.0001 then
    (some false, s1)
  else
    let _ := linear
    let _ := angular
    (none, s1)

/-- `Odometry::updateOpenLoop(double linear, double angular, const
rclcpp::Time and time)`. -/
noncomputable def updateOpenLoop (s : Odometry) (linear angular time : ℝ) : Odometry :=
  let s1 := { s with linear := linear, angular := angular }
  let dt := time - s1.timestamp
  let s2 := { s1 with timestamp := time }
  integrateExact s2 (linear * dt) (angular * dt)

/-- `Odometry::resetOdometry()`. -/
def resetOdometry (s : Odometry) : Odometry :=
  { s with x := 0, y := 0, heading := 0 }

/-- `Odometry::setWheelParams(double wheel_separation, double
left_wheel_radius, double right_wheel_radius)`. -/
def setWheelParams (s : Odometry) (wheel_separation left_wheel_radius right_wheel_radius : ℝ) :
    Odometry :=
  { s with
    wheel_separation := wheel_separation
    left_wheel_radius := left_wheel_radius
    right_wheel_radius := right_wheel_radius }

/-- Folding `integrateExact` over a list of `(linear, angular)`
displacement pairs, modelling a sequence of integration ticks. -/
noncomputable def integrateSeq (s : Odometry) : List (ℝ × ℝ) → Odometry
  | [] => s
  | d :: ds => integrateSeq (integrateExact s d.1 d.2) ds

/-- Both branches of `integrateExact` leave the stored timestamp
unchanged. -/
@[simp]
theorem integrateExact_timestamp (s : Odometry) (l a : ℝ) :
    (integrateExact s l a).timestamp = s.timestamp := by
  by_cases h : |a| < 1e-6 <;>
    simp [integrateExact, integrateRungeKutta2, h]

/-- Both branches of `integrateExact` leave the published linear
velocity unchanged. -/
@[simp]
theorem integrateExact_linear (s : Odometry) (l a : ℝ) :
    (integrateExact s l a).linear = s.linear := by
  by_cases h : |a| < 1e-6 <;>
    simp [integrateExact, integrateRungeKutta2, h]

/-- Both branches of `integrateExact` leave the published angular
velocity unchanged. -/
@[simp]
theorem integrateExact_angular (s : Odometry) (l a : ℝ) :
    (integrateExact s l a).angular = s.angular := by
  by_cases h : |a| < 1e-6 <;>
    simp [integrateExact, integrateRungeKutta2, h]

/-- Both branches of `integrateExact` leave the linear accumulator
unchanged. -/
@[simp]
theorem integrateExact_linear_accumulator (s : Odometry) (l a : ℝ) :
    (integrateExact s l a).linear_accumulator = s.linear_accumulator := by
  by_cases h : |a| < 1e-6 <;>
    simp [integrateExact, integrateRungeKutta2, h]

/-- Both branches of `integrateExact` leave the angular accumulator
unchanged. -/
@[simp]
theorem integrateExact_angular_accumulator (s : Odometry) (l a : ℝ) :
    (integrateExact s l a).angular_accumulator = s.angular_accumulator := by
  by_cases h : |a| < 1e-6 <;>
    simp [integrateExact, integrateRungeKutta2, h]

/-- Both branches of `integrateExact` leave the previous-sample cache
unchanged. -/
@[simp]
theorem integrateExact_old_pos (s : Odometry) (l a : ℝ) :
    (integrateExact s l a).linear_old_pos = s.linear_old_pos ∧
    (integrateExact s l a).angular_old_pos = s.angular_old_pos := by
  by_cases h : |a| < 1e-6 <;>
    simp [integrateExact, integrateRungeKutta2, h]

/-- In both branches of `integrateExact` the heading is advanced by
exactly the angular delta. -/
theorem integrateExact_heading (s : Odometry) (l a : ℝ) :
    (integrateExact s l a).heading = s.heading + a := by
  by_cases h : |a| < 1e-6 <;>
    simp [integrateExact, integrateRungeKutta2, h]

/-- The pose fields produced by `integrateExact` depend only on the pose
fields of the input state. -/
theorem integrateExact_pose_congr (s s' : Odometry) (l a : ℝ)
    (hx : s'.x = s.x) (hy : s'.y = s.y) (hh : s'.heading = s.heading) :
    (integrateExact s' l a).x = (integrateExact s l a).x ∧
    (integrateExact s' l a).y = (integrateExact s l a).y ∧
    (integrateExact s' l a).heading = (integrateExact s l a).heading := by
  by_cases h : |a| < 1e-6 <;>
    simp [integrateExact, integrateRungeKutta2, h, hx, hy, hh]

/-- Heading accumulated over a sequence of ticks is the initial heading
plus the sum of the angular deltas. -/
theorem integrateSeq_heading (s : Odometry) (ds : List (ℝ × ℝ)) :
    (integrateSeq s ds).heading = s.heading + (ds.map Prod.snd).sum := by
  induction ds generalizing s with
  | nil => simp [integrateSeq]
  | cons d ds ih =>
    simp only [integrateSeq, ih, integrateExact_heading, List.map_cons, List.sum_cons]
    ring

/-- With zero angular delta each `integrateExact` tick keeps the heading
and moves (x, y) by the linear delta along the heading direction; over a
sequence the displacement is the sum of the per-tick linear deltas. -/
theorem integrateSeq_zero_ang (s : Odometry) (ds : List (ℝ × ℝ))
    (h : ∀ d ∈ ds, d.2 = 0) :
    (integrateSeq s ds).heading = s.heading ∧
    (integrateSeq s ds).x = s.x + (ds.map Prod.fst).sum * Real.cos s.heading ∧
    (integrateSeq s ds).y = s.y + (ds.map Prod.fst).sum * Real.sin s.heading := by
  induction ds generalizing s with
  | nil => simp [integrateSeq]
  | cons d ds ih =>
    have hd : d.2 = 0 := h d (by simp)
    have hrest : ∀ x ∈ ds, x.2 = 0 := fun x hx => h x (by simp [hx])
    have h0 : |(0 : ℝ)| < 1e-6 := by norm_num
    have hstep : integrateExact s d.1 d.2
        = { s with x := s.x + d.1 * Real.cos s.heading,
                   y := s.y + d.1 * Real.sin s.heading } := by
      rw [hd]
      simp [integrateExact, integrateRungeKutta2, h0]
      intro hle
      norm_num at hle
    obtain ⟨ihh, ihx, ihy⟩ :=
      ih { s with x := s.x + d.1 * Real.cos s.heading,
                  y := s.y + d.1 * Real.sin s.heading } hrest
    simp only [integrateSeq, hstep]
    dsimp only at ihh ihx ihy
    refine ⟨by rw [ihh], ?_, ?_⟩
    · rw [ihx]; simp only [List.map_cons, List.sum_cons]; ring
    · rw [ihy]; simp only [List.map_cons, List.sum_cons]; ring

/-- Closed form of n constant-curvature `integrateExact` ticks in the
exact-arc branch: the pose moves along a circle of signed radius
l / a, the heading accumulating n * a. -/
theorem integrateSeq_const_arc (s : Odometry) (l a : ℝ)
    (h : ¬ |a| < 1e-6) (n : ℕ) :
    (integrateSeq s (List.replicate n (l, a))).x
      = s.x + l / a * (Real.sin (s.heading + n * a) - Real.sin s.heading) ∧
    (integrateSeq s (List.replicate n (l, a))).y
      = s.y - l / a * (Real.cos (s.heading + n * a) - Real.cos s.heading) ∧
    (integrateSeq s (List.replicate n (l, a))).heading = s.heading + n * a := by
  induction n generalizing s with
  | zero => simp [integrateSeq]
  | succ n ih =>
    have hstep : integrateExact s l a
        = { s with
            heading := s.heading + a
            x := s.x + l / a * (Real.sin (s.heading + a) - Real.sin s.heading)
            y := s.y + -(l / a) * (Real.cos (s.heading + a) - Real.cos s.heading) } := by
      simp [integrateExact, h]
    obtain ⟨ihx, ihy, ihh⟩ :=
      ih { s with
           heading := s.heading + a
           x := s.x + l / a * (Real.sin (s.heading + a) - Real.sin s.heading)
           y := s.y + -(l / a) * (Real.cos (s.heading + a) - Real.cos s.heading) }
    rw [List.replicate_succ]
    simp only [integrateSeq, hstep]
    dsimp only at ihx ihy ihh
    refine ⟨?_, ?_, ?_⟩
    · rw [ihx]; push_cast; ring_nf
    · rw [ihy]; push_cast; ring_nf
    · rw [ihh]; push_cast; ring

end Odometry

/-- C8: `resetOdometry()` sets x, y and heading to 0 and changes nothing
else: velocity state, timestamp, previous-sample caches, wheel
parameters, window size and both accumulators are unchanged. -/
theorem resetOdometry_zeroes_pose_only (s : Odometry) :
    (s.resetOdometry).x = 0 ∧ (s.resetOdometry).y = 0 ∧ (s.resetOdometry).heading = 0 ∧
    (s.resetOdometry).linear = s.linear ∧
    (s.resetOdometry).angular = s.angular ∧
    (s.resetOdometry).timestamp = s.timestamp ∧
    (s.resetOdometry).linear_old_pos = s.linear_old_pos ∧
    (s.resetOdometry).angular_old_pos = s.angular_old_pos ∧
    (s.resetOdometry).left_wheel_old_pos = s.left_wheel_old_pos ∧
    (s.resetOdometry).right_wheel_old_pos = s.right_wheel_old_pos ∧
    (s.resetOdometry).wheel_separation = s.wheel_separation ∧
    (s.resetOdometry).left_wheel_radius = s.left_wheel_radius ∧
    (s.resetOdometry).right_wheel_radius = s.right_wheel_radius ∧
    (s.resetOdometry).velocity_rolling_window_size = s.velocity_rolling_window_size ∧
    (s.resetOdometry).linear_accumulator = s.linear_accumulator ∧
    (s.resetOdometry).angular_accumulator = s.angular_accumulator := by
  simp [Odometry.resetOdometry]

/-- C9: heading is never normalized or wrapped: a single
`integrateExact` step adds exactly the angular delta in either branch,
and a sequence of steps ends with the initial heading plus the sum of
all angular deltas applied. -/
theorem heading_never_wrapped :
    (∀ (s : Odometry) (l a : ℝ),
      (s.integrateExact l a).heading = s.heading + a) ∧
    (∀ (s : Odometry) (ds : List (ℝ × ℝ)),
      (s.integrateSeq ds).heading = s.heading + (ds.map Prod.snd).sum) :=
  ⟨Odometry.integrateExact_heading, Odometry.integrateSeq_heading⟩

/-- C4: `integrateExact` branches on whether the absolute angular delta
is below 1e-6: below, it applies the second-order midpoint step of
`integrateRungeKutta2`; at or above, it applies the exact constant
curvature arc step with signed radius r = d_lin / d_ang. -/
theorem integrateExact_branches (s : Odometry) (d_lin d_ang : ℝ) :
    ((s.integrateExact d_lin d_ang).x,
     (s.integrateExact d_lin d_ang).y,
     (s.integrateExact d_lin d_ang).heading) =
      if |d_ang| < 1e-6 then
        (s.x + d_lin * Real.cos (s.heading + d_ang / 2),
         s.y + d_lin * Real.sin (s.heading + d_ang / 2),
         s.heading + d_ang)
      else
        (s.x + d_lin / d_ang * (Real.sin (s.heading + d_ang) - Real.sin s.heading),
         s.y + -(d_lin / d_ang) * (Real.cos (s.heading + d_ang) - Real.cos s.heading),
         s.heading + d_ang) := by
  by_cases h : |d_ang| < 1e-6 <;>
    simp only [Odometry.integrateExact, Odometry.integrateRungeKutta2, h, if_pos, if_neg,
      not_false_iff, ite_true, ite_false] <;>
    norm_num <;>
    ring_nf <;>
    tauto

/-- C1 counterexample: a rejected `update` call (dt = 0 < 1e-4) returns
false but DOES mutate state: the previous-sample cache is overwritten
with the new raw samples before the dt test is reached. -/
theorem update_reject_mutates_cache :
    ((Odometry.mk0 5).update 1 2 0).1 = some false ∧
    ¬ (((Odometry.mk0 5).update 1 2 0).2.linear_old_pos
        = (Odometry.mk0 5).linear_old_pos) ∧
    ¬ (((Odometry.mk0 5).update 1 2 0).2.angular_old_pos
        = (Odometry.mk0 5).angular_old_pos) := by
  norm_num [Odometry.update, Odometry.mk0]

/-- C1 amended: a call of `update` with dt below the 1e-4 threshold
returns false and leaves pose, velocity state, timestamp and both
accumulators unchanged, but overwrites the previous-sample cache with
the new raw samples. -/
theorem update_reject_spec (s : Odometry) (lp ap t : ℝ)
    (h : t - s.timestamp < 0.0001) :
    (s.update lp ap t).1 = some false ∧
    (s.update lp ap t).2.x = s.x ∧
    (s.update lp ap t).2.y = s.y ∧
    (s.update lp ap t).2.heading = s.heading ∧
    (s.update lp ap t).2.linear = s.linear ∧
    (s.update lp ap t).2.angular = s.angular ∧
    (s.update lp ap t).2.timestamp = s.timestamp ∧
    (s.update lp ap t).2.linear_accumulator = s.linear_accumulator ∧
    (s.update lp ap t).2.angular_accumulator = s.angular_accumulator ∧
    (s.update lp ap t).2.linear_old_pos = lp ∧
    (s.update lp ap t).2.angular_old_pos = ap := by
  simp [Odometry.update, h]

/-- Witness for the amended C1 at a concrete rejected call. -/
theorem update_reject_spec_witness :
    ((0 : ℝ) - (Odometry.mk0 5).timestamp < 0.0001) ∧
    ((Odometry.mk0 5).update 1 2 0).1 = some false ∧
    ((Odometry.mk0 5).update 1 2 0).2.x = (Odometry.mk0 5).x ∧
    ((Odometry.mk0 5).update 1 2 0).2.y = (Odometry.mk0 5).y ∧
    ((Odometry.mk0 5).update 1 2 0).2.heading = (Odometry.mk0 5).heading ∧
    ((Odometry.mk0 5).update 1 2 0).2.linear = (Odometry.mk0 5).linear ∧
    ((Odometry.mk0 5).update 1 2 0).2.angular = (Odometry.mk0 5).angular ∧
    ((Odometry.mk0 5).update 1 2 0).2.timestamp = (Odometry.mk0 5).timestamp ∧
    ((Odometry.mk0 5).update 1 2 0).2.linear_accumulator
      = (Odometry.mk0 5).linear_accumulator ∧
    ((Odometry.mk0 5).update 1 2 0).2.angular_accumulator
      = (Odometry.mk0 5).angular_accumulator ∧
    ((Odometry.mk0 5).update 1 2 0).2.linear_old_pos = 1 ∧
    ((Odometry.mk0 5).update 1 2 0).2.angular_old_pos = 2 :=
  ⟨by norm_num [Odometry.mk0],
   update_reject_spec (Odometry.mk0 5) 1 2 0 (by norm_num [Odometry.mk0])⟩

/-- C2, behavior of the code at a failing input: with dt = 1 second
(well above the threshold) the misplaced closing brace makes
`updateFromVelocity` and `return true` unreachable, so `update` falls
off the end of the non-void function (undefined return value, modelled
`none`), performs no pose integration, no timestamp advance and no
accumulator feed, and only the previous-sample cache is written. -/
theorem update_accept_path_is_dead_code :
    ((Odometry.mk0 5).update 1 2 1).1 = none ∧
    ((Odometry.mk0 5).update 1 2 1).2.x = (Odometry.mk0 5).x ∧
    ((Odometry.mk0 5).update 1 2 1).2.y = (Odometry.mk0 5).y ∧
    ((Odometry.mk0 5).update 1 2 1).2.heading = (Odometry.mk0 5).heading ∧
    ((Odometry.mk0 5).update 1 2 1).2.timestamp = (Odometry.mk0 5).timestamp ∧
    ((Odometry.mk0 5).update 1 2 1).2.linear_accumulator
      = (Odometry.mk0 5).linear_accumulator ∧
    ((Odometry.mk0 5).update 1 2 1).2.angular_accumulator
      = (Odometry.mk0 5).angular_accumulator ∧
    ((Odometry.mk0 5).update 1 2 1).2.linear_old_pos = 1 ∧
    ((Odometry.mk0 5).update 1 2 1).2.angular_old_pos = 2 := by
  norm_num [Odometry.update, Odometry.mk0]

/-- C3: `updateFromVelocity` integrates the pose with the raw velocity
values as per-tick displacement deltas (not multiplied by dt), feeds
value / dt into each accumulator with dt taken against the old stored
timestamp, publishes the fresh rolling means as the velocity state,
advances the timestamp, and returns true unconditionally. -/
theorem updateFromVelocity_spec (s : Odometry) (lv av t : ℝ) :
    (s.updateFromVelocity lv av t).1 = true ∧
    (s.updateFromVelocity lv av t).2.x = (s.integrateExact lv av).x ∧
    (s.updateFromVelocity lv av t).2.y = (s.integrateExact lv av).y ∧
    (s.updateFromVelocity lv av t).2.heading = (s.integrateExact lv av).heading ∧
    (s.updateFromVelocity lv av t).2.timestamp = t ∧
    (s.updateFromVelocity lv av t).2.linear_accumulator
      = s.linear_accumulator.accumulate (lv / (t - s.timestamp)) ∧
    (s.updateFromVelocity lv av t).2.angular_accumulator
      = s.angular_accumulator.accumulate (av / (t - s.timestamp)) ∧
    (s.updateFromVelocity lv av t).2.linear
      = (s.linear_accumulator.accumulate (lv / (t - s.timestamp))).getRollingMean ∧
    (s.updateFromVelocity lv av t).2.angular
      = (s.angular_accumulator.accumulate (av / (t - s.timestamp))).getRollingMean := by
  simp [Odometry.updateFromVelocity]

/-- C7: `updateOpenLoop` sets the published velocity state directly to
the commanded values, leaves the accumulators and the previous-sample
cache untouched, advances the timestamp, and integrates the pose with
(linear * dt, angular * dt) where dt is taken against the old stored
timestamp. -/
theorem updateOpenLoop_spec (s : Odometry) (lin ang t : ℝ) :
    (s.updateOpenLoop lin ang t).linear = lin ∧
    (s.updateOpenLoop lin ang t).angular = ang ∧
    (s.updateOpenLoop lin ang t).timestamp = t ∧
    (s.updateOpenLoop lin ang t).linear_accumulator = s.linear_accumulator ∧
    (s.updateOpenLoop lin ang t).angular_accumulator = s.angular_accumulator ∧
    (s.updateOpenLoop lin ang t).linear_old_pos = s.linear_old_pos ∧
    (s.updateOpenLoop lin ang t).angular_old_pos = s.angular_old_pos ∧
    (s.updateOpenLoop lin ang t).x
      = (s.integrateExact (lin * (t - s.timestamp)) (ang * (t - s.timestamp))).x ∧
    (s.updateOpenLoop lin ang t).y
      = (s.integrateExact (lin * (t - s.timestamp)) (ang * (t - s.timestamp))).y ∧
    (s.updateOpenLoop lin ang t).heading
      = (s.integrateExact (lin * (t - s.timestamp)) (ang * (t - s.timestamp))).heading := by
  have hc := Odometry.integrateExact_pose_congr s
    { s with linear := lin, angular := ang, timestamp := t }
    (lin * (t - s.timestamp)) (ang * (t - s.timestamp)) rfl rfl rfl
  simp only [Odometry.updateOpenLoop]
  exact ⟨by simp, by simp, by simp,
    Odometry.integrateExact_linear_accumulator _ _ _,
    Odometry.integrateExact_angular_accumulator _ _ _,
    (Odometry.integrateExact_old_pos _ _ _).1,
    (Odometry.integrateExact_old_pos _ _ _).2,
    hc.1, hc.2.1, hc.2.2⟩

/-- C6: over any sequence of integration ticks whose angular deltas are
all exactly 0, the heading is unchanged and the (x, y) displacement is
the sum of the linear deltas along the constant heading direction; in
particular a tick with both deltas 0 leaves the pose exactly
unchanged. -/
theorem straight_line_exactness (s : Odometry) (ds : List (ℝ × ℝ))
    (h : ∀ d ∈ ds, d.2 = 0) :
    (s.integrateSeq ds).heading = s.heading ∧
    (s.integrateSeq ds).x = s.x + (ds.map Prod.fst).sum * Real.cos s.heading ∧
    (s.integrateSeq ds).y = s.y + (ds.map Prod.fst).sum * Real.sin s.heading ∧
    s.integrateExact 0 0 = s := by
  obtain ⟨h1, h2, h3⟩ := Odometry.integrateSeq_zero_ang s ds h
  have h0 : |(0 : ℝ)| < 1e-6 := by norm_num
  refine ⟨h1, h2, h3, ?_⟩
  simp [Odometry.integrateExact, Odometry.integrateRungeKutta2, h0]

/-- Witness for C6 at a concrete two-tick straight-line sequence. -/
theorem straight_line_exactness_witness :
    (∀ d ∈ [((2 : ℝ), (0 : ℝ)), ((3 : ℝ), (0 : ℝ))], d.2 = 0) ∧
    ((Odometry.mk0 5).integrateSeq [((2 : ℝ), (0 : ℝ)), ((3 : ℝ), (0 : ℝ))]).heading
      = (Odometry.mk0 5).heading ∧
    ((Odometry.mk0 5).integrateSeq [((2 : ℝ), (0 : ℝ)), ((3 : ℝ), (0 : ℝ))]).x
      = (Odometry.mk0 5).x
        + (([((2 : ℝ), (0 : ℝ)), ((3 : ℝ), (0 : ℝ))].map Prod.fst).sum)
          * Real.cos (Odometry.mk0 5).heading ∧
    ((Odometry.mk0 5).integrateSeq [((2 : ℝ), (0 : ℝ)), ((3 : ℝ), (0 : ℝ))]).y
      = (Odometry.mk0 5).y
        + (([((2 : ℝ), (0 : ℝ)), ((3 : ℝ), (0 : ℝ))].map Prod.fst).sum)
          * Real.sin (Odometry.mk0 5).heading ∧
    (Odometry.mk0 5).integrateExact 0 0 = Odometry.mk0 5 :=
  ⟨by simp, straight_line_exactness (Odometry.mk0 5) _ (by simp)⟩

/-- C5: integrating a full constant-curvature loop, n ≥ 1 identical
`integrateExact` ticks in the exact-arc branch whose angular deltas sum
to exactly 2 pi, returns (x, y) exactly to the starting point over exact
real arithmetic. -/
theorem arc_closure (s : Odometry) (n : ℕ) (l a : ℝ)
    (hn : 1 ≤ n) (ha : 1e-6 ≤ |a|) (hsum : (n : ℝ) * a = 2 * Real.pi) :
    (s.integrateSeq (List.replicate n (l, a))).x = s.x ∧
    (s.integrateSeq (List.replicate n (l, a))).y = s.y := by
  have h : ¬ |a| < 1e-6 := not_lt.mpr ha
  obtain ⟨hx, hy, -⟩ := Odometry.integrateSeq_const_arc s l a h n
  rw [hx, hy, hsum, Real.sin_add_two_pi, Real.cos_add_two_pi]
  simp

/-- Witness for C5: one tick of angular delta 2 pi closes the loop. -/
theorem arc_closure_witness :
    (1 ≤ 1) ∧ ((1e-6 : ℝ) ≤ |2 * Real.pi|) ∧
    (((1 : ℕ) : ℝ) * (2 * Real.pi) = 2 * Real.pi) ∧
    ((Odometry.mk0 5).integrateSeq (List.replicate 1 (3, 2 * Real.pi))).x
      = (Odometry.mk0 5).x ∧
    ((Odometry.mk0 5).integrateSeq (List.replicate 1 (3, 2 * Real.pi))).y
      = (Odometry.mk0 5).y := by
  have ha : (1e-6 : ℝ) ≤ |2 * Real.pi| := by
    rw [abs_of_pos (by positivity)]
    nlinarith [Real.pi_gt_three]
  have hsum : ((1 : ℕ) : ℝ) * (2 * Real.pi) = 2 * Real.pi := by norm_num
  exact ⟨le_refl 1, ha, hsum,
    arc_closure (Odometry.mk0 5) 1 3 (2 * Real.pi) (le_refl 1) ha hsum⟩

/-- C10: `updateFromVelocity` divides by dt with no guard: a call whose
timestamp equals the stored timestamp computes dt = 0, still proceeds
(returns true), and feeds the division-by-zero values linear_vel / 0 and
angular_vel / 0 into the accumulators, publishing the resulting rolling
means as the velocity state.  Over IEEE doubles these quotients are
non-finite; in this exact-real model the division by the zero dt is made
explicit instead. -/
theorem updateFromVelocity_zero_dt_division (s : Odometry) (lv av : ℝ) :
    s.timestamp - s.timestamp = 0 ∧
    (s.updateFromVelocity lv av s.timestamp).1 = true ∧
    (s.updateFromVelocity lv av s.timestamp).2.linear_accumulator
      = s.linear_accumulator.accumulate (lv / 0) ∧
    (s.updateFromVelocity lv av s.timestamp).2.angular_accumulator
      = s.angular_accumulator.accumulate (av / 0) ∧
    (s.updateFromVelocity lv av s.timestamp).2.linear
      = (s.linear_accumulator.accumulate (lv / 0)).getRollingMean ∧
    (s.updateFromVelocity lv av s.timestamp).2.angular
      = (s.angular_accumulator.accumulate (av / 0)).getRollingMean := by
  simp [Odometry.updateFromVelocity, sub_self]

end HunterController
